import Mathlib

/-!
Verification of `causalnlp/causalinference.py` (class `CausalInferenceModel`).

Shallow embedding: pandas columns become `List ℚ`, dataframes become lists of
rows, `np.mean` of an empty array becomes the `none` (NaN) sentinel of an
`Option ℚ`, methods that raise become `Except`-valued functions, and the
collaborator modules (preprocessing pipeline, metalearner classes, sklearn
search) are abstracted as function parameters where the orchestrator only
invokes them.
-/

namespace CausalNLP

/-! ### Numpy / pandas primitives used by the orchestrator -/

/-- Model of `np.mean` over a 1-d array of rationals: the mean of an empty
array is NaN, modelled as `none`; otherwise the unweighted arithmetic mean. -/
def npMean (a : List ℚ) : Option ℚ :=
  if a.isEmpty then none else some (a.sum / a.length)

/-- Pandas boolean-mask row selection `df[bool_mask]`: keep the entries whose
mask position is `true` (positional alignment of equal-length sequences). -/
def boolMaskSelect (col : List ℚ) (mask : List Bool) : List ℚ :=
  (col.zip mask).filterMap (fun p => if p.2 then some p.1 else none)

/-- Model of the ternary `np.where(cond, a, b)` over aligned columns:
elementwise selection. -/
def npWhere {α : Type} : List Bool → List α → List α → List α
  | c :: cs, x :: xs, y :: ys => (if c then x else y) :: npWhere cs xs ys
  | _, _, _ => []

/-- Decide whether the character list `pat` is a prefix of `s`. -/
def charPrefix : List Char → List Char → Bool
  | [], _ => true
  | _ :: _, [] => false
  | a :: as, b :: bs => a = b && charPrefix as bs

/-- Decide whether `pat` occurs as a contiguous sublist of `s`. -/
def charSub (pat : List Char) : List Char → Bool
  | [] => pat.isEmpty
  | c :: rest => charPrefix pat (c :: rest) || charSub pat rest

/-- String containment test, used to state what an error message mentions. -/
def strHasSub (s pat : String) : Bool :=
  charSub pat.toList s.toList

/-! ### `estimate_ate` (lines 192–200)

```python
def estimate_ate(self, bool_mask=None):
    df = self.df if bool_mask is None else self.df[bool_mask]
    a = df[self.te].values
    mean = np.mean(a)
    return {'ate' : mean}
```

The method only reads `self.df[self.te]` and the opaque fitted-model state is
untouched, so the state an invocation can observe is the treatment-effect
column plus an opaque model component. -/

/-- The named scalar result `{'ate': mean}` returned by `estimate_ate`. -/
structure AteResult where
  ate : Option ℚ
  deriving DecidableEq, Repr

/-- Observable state of a fitted orchestrator for `estimate_ate`: the stored
Treatment Effect Column `self.df[self.te]` and the opaque fitted-model state
(`self.model`, plus every other attribute the method never touches). -/
structure FittedState (μ : Type) where
  te_col : List ℚ
  model_state : μ
  deriving DecidableEq, Repr

/-- Embedding of `CausalInferenceModel.estimate_ate`.  The Python body has no
assignment to `self`, so the method returns the result together with the
unchanged state. -/
def estimate_ate {μ : Type} (s : FittedState μ) (bool_mask : Option (List Bool)) :
    AteResult × FittedState μ :=
  let a := match bool_mask with
    | none => s.te_col
    | some mask => boolMaskSelect s.te_col mask
  ({ ate := npMean a }, s)

/-! ### Theorems for C1 and C10 -/

theorem npMean_cons (x : ℚ) (xs : List ℚ) :
    npMean (x :: xs) = some ((x :: xs).sum / (x :: xs).length) := by
  simp [npMean]

/-- C1: for a fitted orchestrator, `estimate_ate(None)` returns `{'ate': m}`
with `m` the unweighted arithmetic mean of the Treatment Effect Column over
all rows, `estimate_ate(mask)` returns the mean restricted to the masked
rows, and neither call changes the stored dataset or model state. -/
theorem estimate_ate_spec {μ : Type} (s : FittedState μ) (mask : List Bool)
    (hne : s.te_col ≠ []) :
    (estimate_ate s none).1.ate = some (s.te_col.sum / s.te_col.length)
    ∧ (estimate_ate s (some mask)).1.ate = npMean (boolMaskSelect s.te_col mask)
    ∧ (estimate_ate s none).2 = s
    ∧ (estimate_ate s (some mask)).2 = s := by
  refine ⟨?_, rfl, rfl, rfl⟩
  cases h : s.te_col with
  | nil => exact absurd h hne
  | cons x xs => simp [estimate_ate, h, npMean_cons]

/-- Witness for C1: ten effect values, a mask selecting five of them; the full
mean is 11/4 and the masked mean is 3. -/
theorem estimate_ate_spec_witness :
    (estimate_ate (⟨[1, 2, 3, 4, 5, 1, 2, 3, 4, (5:ℚ)/2], ()⟩ : FittedState Unit)
        none).1.ate = some (11/4)
    ∧ (estimate_ate (⟨[1, 2, 3, 4, 5, 1, 2, 3, 4, (5:ℚ)/2], ()⟩ : FittedState Unit)
        (some [true, true, true, true, true, false, false, false, false, false])).1.ate
      = some 3 := by
  have h := estimate_ate_spec (⟨[1, 2, 3, 4, 5, 1, 2, 3, 4, (5:ℚ)/2], ()⟩ : FittedState Unit)
    [true, true, true, true, true, false, false, false, false, false] (by decide)
  refine ⟨?_, ?_⟩
  · rw [h.1]
    norm_num [List.sum_cons]
  · rw [h.2.1]
    norm_num [boolMaskSelect, npMean, List.zip, List.zipWith, List.filterMap_cons,
      List.sum_cons]

/-- C10: a boolean mask selecting no rows does not raise: `estimate_ate`
returns `{'ate': v}` with `v` the NaN sentinel `np.mean` produces on an empty
selection (the empty-after-mask policy is NaN-return, not error). -/
theorem estimate_ate_empty_mask {μ : Type} (s : FittedState μ) (mask : List Bool)
    (hsel : boolMaskSelect s.te_col mask = []) :
    (estimate_ate s (some mask)).1 = { ate := none } := by
  simp [estimate_ate, hsel, npMean]

/-- Witness for C10: an all-false mask over a three-row dataset yields the NaN
sentinel. -/
theorem estimate_ate_empty_mask_witness :
    (estimate_ate (⟨[1, 2, 3], ()⟩ : FittedState Unit)
        (some [false, false, false])).1 = { ate := none } :=
  estimate_ate_empty_mask (⟨[1, 2, 3], ()⟩ : FittedState Unit)
    [false, false, false] (by decide)

/-! ### Constructor validation (lines 92–94)

```python
metalearner_list = list(metalearner_cls_dict.keys())
if metalearner_type not in metalearner_list:
    raise ValueError('metalearner_type is required and must be one of: %s' % (metalearner_list))
self.te = treatment_effect_col
...
self.df = df.copy()
...
self.df, self.x, self.y, self.treatment = self.pp.preprocess(...)
self.model = self._create_metalearner(...)
```

The validity check is the first statement of `__init__`; the defensive copy,
the preprocessing call and the metalearner construction all come after it. -/

/-- Keys of `metalearner_cls_dict`, in insertion order (lines 29–32). -/
def metalearner_keys : List String :=
  ["t-learner", "x-learner", "r-learner", "s-learner"]

/-- Python `repr` of a list of strings, as interpolated by `'%s' % (lst)`:
each element in single quotes (`\x27`), comma-separated, in brackets. -/
def pyListRepr (l : List String) : String :=
  "[" ++ String.intercalate ", " (l.map (fun s => "\x27" ++ s ++ "\x27")) ++ "]"

/-- The `ValueError` message of line 94. -/
def invalid_metalearner_msg : String :=
  "metalearner_type is required and must be one of: " ++ pyListRepr metalearner_keys

/-- State built by `CausalInferenceModel.__init__` once validation passes:
the (preprocessed) defensive dataframe copy, the feature matrix produced by
preprocessing, and the constructed metalearner.  `D`, `X`, `M` abstract the
dataframe, feature-matrix and metalearner types of the collaborators. -/
structure CIModel (D X M : Type) where
  te : String
  metalearner_type : String
  df : D
  x : X
  model : M

/-- Embedding of `CausalInferenceModel.__init__`, parametric in the two
collaborators it invokes: the preprocessing pipeline (`preprocess`) and the
metalearner factory (`create_metalearner`, lines 127–156).  The tag check is
performed first; only on success are the defensive copy taken, the
preprocessor run and the metalearner built. -/
def cim_init {D X M : Type} (preprocess : D → D × X) (create_metalearner : String → M)
    (df : D) (metalearner_type : String) (treatment_effect_col : String) :
    Except String (CIModel D X M) :=
  if metalearner_type ∉ metalearner_keys then
    .error invalid_metalearner_msg
  else
    let df_copy := df
    let px := preprocess df_copy
    .ok { te := treatment_effect_col
          metalearner_type := metalearner_type
          df := px.1
          x := px.2
          model := create_metalearner metalearner_type }

/-- C3: an unrecognized `metalearner_type` makes construction fail with the
invalid-configuration `ValueError` whose message lists the four valid tags,
and the failure is independent of the preprocessing and model-construction
collaborators and of the dataframe — i.e. it happens before any preprocessing
or model construction can run. -/
theorem cim_init_invalid_tag {D X M : Type} (t te : String)
    (ht : t ∉ metalearner_keys)
    (pp₁ pp₂ : D → D × X) (cr₁ cr₂ : String → M) (df₁ df₂ : D) :
    cim_init pp₁ cr₁ df₁ t te = .error invalid_metalearner_msg
    ∧ cim_init pp₂ cr₂ df₂ t te = cim_init pp₁ cr₁ df₁ t te
    ∧ ∀ k ∈ metalearner_keys, strHasSub invalid_metalearner_msg k = true := by
  refine ⟨by simp [cim_init, ht], by simp [cim_init, ht], by decide⟩

/-- Witness for C3: the tag `z-learner` (with trivial collaborators) is
rejected with the message listing the four valid tags. -/
theorem cim_init_invalid_tag_witness :
    cim_init (fun d : Unit => (d, ())) (fun _ : String => ()) () "z-learner" "treatment_effect"
      = .error invalid_metalearner_msg
    ∧ ∀ k ∈ metalearner_keys, strHasSub invalid_metalearner_msg k = true := by
  have h := cim_init_invalid_tag (D := Unit) (X := Unit) (M := Unit)
    "z-learner" "treatment_effect" (by decide)
    (fun d => (d, ())) (fun d => (d, ())) (fun _ => ()) (fun _ => ()) () ()
  exact ⟨h.1, h.2.2⟩

/-! ### `interpret` (lines 203–224)

```python
def interpret(self, plot=False, method='feature_importance'):
    tau = self.df[self.te]
    feature_names = self.x.columns.values
    if plot:
        if method=='feature_importance':   fn = self.model.plot_importance
        elif method == 'shap_values':      fn = self.model.plot_shap_values
        else: raise ValueError('Unknown method: %s' % method)
    else:
        if method=='feature_importance':   fn = self.model.get_importance
        elif method == 'shap_values':      fn = self.model.get_shap_values
        else: raise ValueError('Unknown method: %s' % method)
    return fn(X=self.x, tau=tau, features = feature_names)
```
-/

/-- The metalearner member selected by `interpret` before it is invoked. -/
inductive InterpretFn where
  | plot_importance
  | plot_shap_values
  | get_importance
  | get_shap_values
  deriving DecidableEq, Repr

/-- The two recognized `method` values of `interpret`. -/
def interpret_methods : List String := ["feature_importance", "shap_values"]

/-- Embedding of the method-dispatch of `CausalInferenceModel.interpret`:
which collaborator member is selected, or the `ValueError` raised. -/
def interpret (plot : Bool) (method : String) : Except String InterpretFn :=
  if plot then
    if method = "feature_importance" then .ok .plot_importance
    else if method = "shap_values" then .ok .plot_shap_values
    else .error ("Unknown method: " ++ method)
  else
    if method = "feature_importance" then .ok .get_importance
    else if method = "shap_values" then .ok .get_shap_values
    else .error ("Unknown method: " ++ method)

theorem charPrefix_self (l : List Char) : charPrefix l l = true := by
  induction l with
  | nil => rfl
  | cons c cs ih => simp [charPrefix, ih]

theorem charSub_append (s pat : List Char) : charSub pat (s ++ pat) = true := by
  induction s with
  | nil =>
    cases pat with
    | nil => rfl
    | cons p ps => simp [charSub, charPrefix_self]
  | cons c cs ih => simp [charSub, ih]

theorem strHasSub_append (s pat : String) : strHasSub (s ++ pat) pat = true := by
  simp [strHasSub, String.toList, charSub_append]

/-- Counterexample to C7 as stated: at method `z-method` the raised message is
`Unknown method: z-method`, which contains the invalid value but does not
mention either recognized value, so the recognized set is not in the message. -/
theorem interpret_msg_lacks_recognized_set :
    interpret false "z-method" = .error ("Unknown method: " ++ "z-method")
    ∧ strHasSub ("Unknown method: " ++ "z-method") "feature_importance" = false
    ∧ strHasSub ("Unknown method: " ++ "z-method") "shap_values" = false := by
  refine ⟨by simp [interpret], by decide, by decide⟩

/-- C7 amended: for every method outside the two recognized values,
`interpret` raises the `ValueError` `Unknown method: <value>` — immediately,
in both plot modes, with the invalid value in the message but without the
recognized set — and for the two recognized values no such error is raised. -/
theorem interpret_unknown_method (plot : Bool) (method : String)
    (h : method ∉ interpret_methods) :
    interpret plot method = .error ("Unknown method: " ++ method)
    ∧ strHasSub ("Unknown method: " ++ method) method = true
    ∧ ∀ m ∈ interpret_methods, ∃ f, interpret plot m = .ok f := by
  simp only [interpret_methods, List.mem_cons, List.not_mem_nil, or_false,
    not_or] at h
  obtain ⟨h₁, h₂⟩ := h
  refine ⟨?_, strHasSub_append _ _, ?_⟩
  · cases plot <;> simp [interpret, h₁, h₂]
  · intro m hm
    simp only [interpret_methods, List.mem_cons, List.not_mem_nil, or_false] at hm
    cases plot <;> rcases hm with rfl | rfl <;> simp [interpret]

/-- Witness for the amended C7 at the concrete invalid method `z-method`. -/
theorem interpret_unknown_method_witness :
    interpret true "z-method" = .error ("Unknown method: " ++ "z-method")
    ∧ strHasSub ("Unknown method: " ++ "z-method") "z-method" = true :=
  ⟨(interpret_unknown_method true "z-method" (by decide)).1,
   (interpret_unknown_method true "z-method" (by decide)).2.1⟩

/-! ### `tune_and_use_default_learner` (lines 326–379)

```python
if self.pp.is_classification:
    learner_type = LGBMClassifier
    scoring = 'roc_auc' if scoring is None else scoring
else:
    learner_type =  LGBMRegressor
    scoring = 'neg_mean_squared_error' if scoring is None else scoring
...
gs = RandomizedSearchCV(
        estimator=clf, param_distributions=param_test,
        n_iter=n_HP_points_to_test,
        scoring='roc_auc',
        cv=3,
        refit=True, ...)
```

The local `scoring` variable is computed (lines 357–362) but the search is
constructed with the literal `'roc_auc'` (line 369), so the local value is
never used. -/

/-- Observable configuration of the randomized search built by
`tune_and_use_default_learner`: the locally computed scoring default together
with the arguments actually passed to `RandomizedSearchCV`. -/
structure TuneTrace where
  local_scoring : String
  search_scoring : String
  n_iter : Nat
  cv : Nat
  refit : Bool
  deriving DecidableEq, Repr

/-- Embedding of the scoring selection and search construction inside
`CausalInferenceModel.tune_and_use_default_learner` (`scoring = None` is the
default argument, modelled as `none`). -/
def tune_and_use_default_learner (is_classification : Bool) (scoring : Option String) :
    TuneTrace :=
  let scoring_local :=
    if is_classification then
      match scoring with
      | none => "roc_auc"
      | some s => s
    else
      match scoring with
      | none => "neg_mean_squared_error"
      | some s => s
  { local_scoring := scoring_local
    search_scoring := "roc_auc"
    n_iter := 100
    cv := 3
    refit := true }

/-- C2 (code bug, line 369): on a regression task with `scoring=None`, the
docstring (and the claim) select `neg_mean_squared_error`, and the local
variable indeed holds that value, but the search is constructed with the
hard-coded literal `roc_auc`; a caller-supplied scoring value is likewise
ignored by the search. -/
theorem tune_search_scoring_hardcoded :
    (tune_and_use_default_learner false none).search_scoring = "roc_auc"
    ∧ (tune_and_use_default_learner false none).local_scoring = "neg_mean_squared_error"
    ∧ (tune_and_use_default_learner false none).search_scoring
        ≠ (tune_and_use_default_learner false none).local_scoring
    ∧ (tune_and_use_default_learner true (some "f1")).search_scoring = "roc_auc"
    ∧ ∀ c s, (tune_and_use_default_learner c s).search_scoring = "roc_auc" :=
  ⟨rfl, rfl, by decide, rfl, fun _ _ => rfl⟩

/-! ### `evaluate_robustness` distance column (lines 405–407)

```python
df['Distance from Desired (should be near 0)'] = np.where(df['Method']=='Placebo Treatment',
                                                     df['New ATE']-0.0,
                                                     df['New ATE']-df['ATE'])
```

The report frame returned by `sensitivity_analysis` is modelled row-wise;
column extraction `df[c]` is a `map` over the rows and the vectorized
`np.where` combines the three aligned columns elementwise. -/

/-- One row of the sensitivity report produced by the collaborator
`Sensitivity.sensitivity_analysis`. -/
structure SensRow where
  method : String
  ate : ℚ
  new_ate : ℚ
  deriving DecidableEq, Repr

/-- Embedding of lines 405–407: each report row is paired with its computed
`Distance from Desired (should be near 0)` value. -/
def evaluate_robustness_add_distance (rows : List SensRow) : List (SensRow × ℚ) :=
  rows.zip (npWhere (rows.map (fun r => r.method == "Placebo Treatment"))
                    (rows.map (fun r => r.new_ate - 0))
                    (rows.map (fun r => r.new_ate - r.ate)))

theorem npWhere_map {α β : Type} (f : α → Bool) (g h : α → β) (l : List α) :
    npWhere (l.map f) (l.map g) (l.map h) = l.map (fun x => if f x then g x else h x) := by
  induction l with
  | nil => rfl
  | cons x xs ih => simp [npWhere, ih]

theorem zip_self_map_snd {α β : Type} (F : α → β) (l : List α) (p : α × β)
    (hp : p ∈ l.zip (l.map F)) : p.2 = F p.1 := by
  induction l with
  | nil => simp at hp
  | cons x xs ih =>
    rw [List.map_cons, List.zip_cons_cons] at hp
    rcases List.mem_cons.mp hp with h | h
    · rw [h]
    · exact ih h

/-- C4: in the report returned by `evaluate_robustness`, a row whose Method
is `Placebo Treatment` gets Distance from Desired `New ATE − 0.0`, and every
other row gets `New ATE − ATE`. -/
theorem evaluate_robustness_distance_spec (rows : List SensRow) (r : SensRow) (d : ℚ)
    (hmem : (r, d) ∈ evaluate_robustness_add_distance rows) :
    d = if r.method = "Placebo Treatment" then r.new_ate - 0 else r.new_ate - r.ate := by
  unfold evaluate_robustness_add_distance at hmem
  rw [npWhere_map] at hmem
  have h := zip_self_map_snd
    (fun x => if x.method == "Placebo Treatment" then x.new_ate - 0 else x.new_ate - x.ate)
    rows (r, d) hmem
  simpa [beq_iff_eq] using h

/-- Witness for C4 on a two-row fixture: the placebo row's distance is its
New ATE minus zero, the subset row's distance is New ATE minus ATE. -/
theorem evaluate_robustness_distance_spec_witness :
    ((⟨"Placebo Treatment", 2, 5⟩ : SensRow), (5:ℚ) - 0)
      ∈ evaluate_robustness_add_distance [⟨"Placebo Treatment", 2, 5⟩, ⟨"Subset Data", 2, 3⟩]
    ∧ ((5:ℚ) - 0)
      = if (⟨"Placebo Treatment", 2, 5⟩ : SensRow).method = "Placebo Treatment"
        then (5:ℚ) - 0 else (5:ℚ) - 2 := by
  have hmem : ((⟨"Placebo Treatment", 2, 5⟩ : SensRow), (5:ℚ) - 0)
      ∈ evaluate_robustness_add_distance [⟨"Placebo Treatment", 2, 5⟩, ⟨"Subset Data", 2, 3⟩] := by
    simp [evaluate_robustness_add_distance, npWhere]
  exact ⟨hmem, evaluate_robustness_distance_spec _ _ _ hmem⟩

/-! ### `explain` (lines 274–312)

```python
def explain(self, df, row_index=None, row_num=0, background_size=50, nsamples=500):
    try: import shap
    except ImportError:
        msg = 'The explain method requires shap library. Please install with: pip install shap. '+\
                'Conda users should use this command instead: conda install -c conda-forge shap'
        raise ImportError(msg)
    f = self._predict_shap
    _, df_display, _, _ = self.pp.preprocess(df.copy(), training=False)
    df_display_row = df_display.iloc[[row_num]]
    ...
    explainer = shap.KernelExplainer(f, self.x.iloc[:background_size,:])
```

`row_index` is accepted but never read; the selected row is `row_num` (default
0).  The background handed to the explainer is the first `background_size`
rows of the fitted training feature matrix `self.x`. -/

/-- Modules imported at module level of `causalinference.py` (lines 6–22);
`shap` is not among them — it is only imported inside `explain`. -/
def module_level_imports : List String :=
  ["pandas", "time", "causalnlp.meta.tlearner", "causalnlp.meta.slearner",
   "causalnlp.meta.xlearner", "causalnlp.meta.rlearner", "causalnlp.meta.propensity",
   "causalnlp.meta.utils", "scipy.stats", "lightgbm", "numpy", "warnings", "copy",
   "matplotlib.pyplot", "causalnlp.preprocessing"]

/-- The `ImportError` message raised by `explain` when `shap` is absent
(lines 288–289). -/
def shap_missing_msg : String :=
  "The explain method requires shap library. Please install with: pip install shap. "
  ++ "Conda users should use this command instead: conda install -c conda-forge shap"

/-- Inputs `explain` hands to the third-party explainer: the row selected for
attribution and the background sample for the baseline distribution. -/
structure ExplainData (R : Type) where
  selected_rows : List R
  background : List R
  deriving DecidableEq, Repr

set_option linter.unusedVariables false in
/-- Embedding of `CausalInferenceModel.explain`, parametric in the
inference-mode preprocessing transform (`self.pp.preprocess(·, training=False)`,
feature-matrix component) and the stored training feature rows `self.x`.
`shap_importable` models whether `import shap` succeeds; `row_index` is
accepted and never read, exactly as in the source. -/
def explain {D R : Type} (shap_importable : Bool) (transform_inference : D → List R)
    (x_rows : List R) (df : D) (row_index : Option Nat) (row_num : Nat)
    (background_size : Nat) : Except String (ExplainData R) :=
  if !shap_importable then
    .error shap_missing_msg
  else
    let df_display := transform_inference df
    let df_display_row := (df_display.drop row_num).take 1
    .ok { selected_rows := df_display_row
          background := x_rows.take background_size }

/-- Counterexample to C8 as stated: with a two-row input, `row_index = 1` and
the default `row_num = 0`, `explain` selects row 0 — not the row identified by
the row-index argument, which is row 1. -/
theorem explain_row_index_ignored_cex :
    explain true (fun d : List (List ℚ) => d) [[9, 9]] [[1, 0], [2, 0]] (some 1) 0 50
      = .ok { selected_rows := [[1, 0]], background := [[9, 9]] }
    ∧ [[(1:ℚ), 0]] ≠ [[(2:ℚ), 0]] := by
  constructor
  · rfl
  · intro h
    have h10 : (1:ℚ) ≠ 2 := by norm_num
    exact h10 (congrArg (fun l => (l.headD []).headD 0) h)

/-- C8 amended: `explain(df, row_index, row_num)` re-preprocesses `df` in
inference mode and selects the single row at position `row_num` of the
transformed frame (the `row_index` argument is accepted but ignored: the
result is independent of it), using the first `background_size`
fitted-training rows as the explainer background. -/
theorem explain_selects_row_num {D R : Type} (transform_inference : D → List R)
    (x_rows : List R) (df : D) (row_index row_index' : Option Nat)
    (row_num background_size : Nat) (r₀ : R)
    (hlt : row_num < (transform_inference df).length) :
    explain true transform_inference x_rows df row_index row_num background_size
      = .ok { selected_rows := [(transform_inference df).getD row_num r₀]
              background := x_rows.take background_size }
    ∧ explain true transform_inference x_rows df row_index row_num background_size
      = explain true transform_inference x_rows df row_index' row_num background_size := by
  refine ⟨?_, rfl⟩
  have hsel : ((transform_inference df).drop row_num).take 1
      = [(transform_inference df).getD row_num r₀] := by
    rw [List.drop_eq_getElem_cons hlt, List.take_succ_cons, List.take_zero,
      List.getD_eq_getElem _ _ hlt]
  unfold explain
  simp only [Bool.not_true, Bool.false_eq_true, ite_false, hsel]

/-- Witness for the amended C8: concrete two-row frame, `row_num = 1`
selected, background truncated to the first row. -/
theorem explain_selects_row_num_witness :
    explain true (fun d : List (List ℚ) => d) [[9, 9], [8, 8]] [[1, 0], [2, 0]] none 1 1
      = .ok { selected_rows := [[2, 0]], background := [[9, 9]] } :=
  (explain_selects_row_num (fun d : List (List ℚ) => d) [[9, 9], [8, 8]]
    [[1, 0], [2, 0]] none (some 0) 1 1 [] (by norm_num)).1

/-- C9: when the optional `shap` dependency is absent, `explain` fails with
an `ImportError` whose message names the install remedy; the failure is
independent of the preprocessing collaborator (the probe is the first thing
`explain` does), never a silent skip or an unrelated error, and `shap` is not
imported at module level (so absence cannot surface at construction). -/
theorem explain_missing_shap {D R : Type} (tf tf' : D → List R) (x_rows : List R)
    (df : D) (row_index : Option Nat) (row_num background_size : Nat) :
    explain false tf x_rows df row_index row_num background_size
      = .error shap_missing_msg
    ∧ strHasSub shap_missing_msg "pip install shap" = true
    ∧ explain false tf x_rows df row_index row_num background_size
      = explain false tf' x_rows df row_index row_num background_size
    ∧ "shap" ∉ module_level_imports :=
  ⟨rfl, by decide, rfl, by decide⟩

/-! ### Defensive copy at construction, fit mutation (lines 95–118, 159–170)

```python
self.df = df.copy()                                   # line 98
self.df, self.x, self.y, self.treatment = self.pp.preprocess(self.df, training=True, ...)
...
def fit(self):
    self.model.fit(self.x.values, self.treatment.values, self.y.values)
    preds = self._predict(self.x)
    self.df[self.te] = preds                          # line 168
```

The aliasing claim needs object identity, so dataframe objects live in an
explicit heap and Python variables hold references.  `df.copy()` allocates a
fresh object with the caller object's value; `self.df[self.te] = preds`
writes in place through the orchestrator's own reference. -/

/-- A dataframe value for the aliasing model: named columns of rationals. -/
abbrev PyFrame := List (String × List ℚ)

/-- Heap of dataframe objects; references are indices into it. -/
abbrev Heap := List PyFrame

/-- Dereference (out-of-range reads give the empty frame). -/
def readRef (h : Heap) (r : Nat) : PyFrame := h.getD r []

/-- Allocate a fresh object holding value `d` — what `df.copy()` does with
the caller object's value, and what a collaborator returning a new frame
does. -/
def allocRef (h : Heap) (d : PyFrame) : Heap × Nat := (h ++ [d], h.length)

/-- In-place update of the object behind `r` — what `self.df[col] = values`
does to the referenced object. -/
def writeRef (h : Heap) (r : Nat) (d : PyFrame) : Heap := h.set r d

/-- Pandas column assignment `frame[c] = vals` on a frame value: overwrite
the column if present, else append it. -/
def setCol (d : PyFrame) (c : String) (vals : List ℚ) : PyFrame :=
  if d.any (fun p => p.1 == c) then
    d.map (fun p => if p.1 == c then (c, vals) else p)
  else d ++ [(c, vals)]

/-- The orchestrator's dataframe-relevant attributes: its own reference
`self.df` and the column name `self.te`. -/
structure CIMRef where
  df_ref : Nat
  te : String

/-- Embedding of the dataframe handling in `__init__` (lines 98 and 113):
read the caller's object, allocate the defensive copy, run the preprocessing
collaborator `pp` on the copy and rebind `self.df` to the returned frame. -/
def cim_construct (pp : PyFrame → PyFrame) (h : Heap) (caller : Nat) (te : String) :
    Heap × CIMRef :=
  let copied := readRef h caller
  let a1 := allocRef h copied
  let pre := pp (readRef a1.1 a1.2)
  let a2 := allocRef a1.1 pre
  (a2.1, { df_ref := a2.2, te := te })

/-- Embedding of the dataframe mutation in `fit` (line 168):
`self.df[self.te] = preds`, with `preds` computed by the fitted model from
the stored data. -/
def cim_fit_update (predict_train : PyFrame → List ℚ) (h : Heap) (m : CIMRef) : Heap :=
  let stored := readRef h m.df_ref
  let preds := predict_train stored
  writeRef h m.df_ref (setCol stored m.te preds)

theorem readRef_append_lt (h : Heap) (d : PyFrame) (r : Nat) (hr : r < h.length) :
    readRef (h ++ [d]) r = readRef h r :=
  List.getD_append h [d] [] r hr

theorem readRef_append_self (h : Heap) (d : PyFrame) :
    readRef (h ++ [d]) h.length = d := by
  unfold readRef
  rw [List.getD_append_right h [d] [] h.length (Nat.le_refl _)]
  simp

theorem readRef_write_ne (h : Heap) (r r' : Nat) (d : PyFrame) (hne : r ≠ r') :
    readRef (writeRef h r d) r' = readRef h r' := by
  unfold readRef writeRef
  rw [List.getD_eq_getD_get?, List.get?_eq_getElem?, List.getElem?_set_ne hne,
    ← List.get?_eq_getElem?, ← List.getD_eq_getD_get?]

theorem readRef_write_self (h : Heap) (r : Nat) (d : PyFrame) (hr : r < h.length) :
    readRef (writeRef h r d) r = d := by
  unfold readRef writeRef
  rw [List.getD_eq_getD_get?, List.get?_eq_getElem?, List.getElem?_set_self hr]
  rfl

/-- C5: construction takes a defensive copy of the caller's dataframe and
`fit` writes the Treatment Effect Column only into the orchestrator's stored
copy: the caller's object is unchanged after construction and still unchanged
after `fit`, while the stored object ends up as the preprocessed copy with
the effect column written into it. -/
theorem construct_fit_no_caller_mutation (pp : PyFrame → PyFrame)
    (predict_train : PyFrame → List ℚ) (h : Heap) (caller : Nat) (te : String)
    (hc : caller < h.length) :
    readRef (cim_construct pp h caller te).1 caller = readRef h caller
    ∧ readRef (cim_fit_update predict_train (cim_construct pp h caller te).1
        (cim_construct pp h caller te).2) caller = readRef h caller
    ∧ readRef (cim_fit_update predict_train (cim_construct pp h caller te).1
        (cim_construct pp h caller te).2) (cim_construct pp h caller te).2.df_ref
      = setCol (pp (readRef h caller)) te (predict_train (pp (readRef h caller))) := by
  have e1 : (cim_construct pp h caller te).1
      = (h ++ [readRef h caller]) ++ [pp (readRef h caller)] := by
    simp only [cim_construct, allocRef, readRef_append_self]
  have e2 : (cim_construct pp h caller te).2.df_ref = h.length + 1 := by
    simp only [cim_construct, allocRef, List.length_append, List.length_cons,
      List.length_nil]
  have hc1 : caller < (h ++ [readRef h caller]).length := by
    rw [List.length_append, List.length_singleton]
    omega
  have hlen1 : h.length + 1 = (h ++ [readRef h caller]).length := by
    rw [List.length_append, List.length_singleton]
  have hA : readRef (cim_construct pp h caller te).1 caller = readRef h caller := by
    rw [e1, readRef_append_lt _ _ _ hc1, readRef_append_lt _ _ _ hc]
  have hstored : readRef (cim_construct pp h caller te).1
      (cim_construct pp h caller te).2.df_ref = pp (readRef h caller) := by
    rw [e1, e2, hlen1, readRef_append_self]
  refine ⟨hA, ?_, ?_⟩
  · have hne : (cim_construct pp h caller te).2.df_ref ≠ caller := by
      rw [e2]; omega
    unfold cim_fit_update
    rw [readRef_write_ne _ _ _ _ hne, hA]
  · have e3 : (cim_construct pp h caller te).2.te = te := rfl
    have hlt2 : (cim_construct pp h caller te).2.df_ref
        < (cim_construct pp h caller te).1.length := by
      rw [e1, e2, List.length_append, List.length_singleton, List.length_append,
        List.length_singleton]
      omega
    unfold cim_fit_update
    rw [hstored, e3, readRef_write_self _ _ _ hlt2]

/-- Witness for C5: one caller frame on the heap; after construction (with an
identity preprocessor) and fit, the caller's object still holds its original
value and the stored copy gained the `treatment_effect` column. -/
theorem construct_fit_no_caller_mutation_witness :
    readRef (cim_fit_update (fun _ => [5, 5])
        (cim_construct id [[("outcome", [1, 2])]] 0 "treatment_effect").1
        (cim_construct id [[("outcome", [1, 2])]] 0 "treatment_effect").2) 0
      = [("outcome", [1, 2])]
    ∧ readRef (cim_fit_update (fun _ => [5, 5])
        (cim_construct id [[("outcome", [1, 2])]] 0 "treatment_effect").1
        (cim_construct id [[("outcome", [1, 2])]] 0 "treatment_effect").2)
        (cim_construct id [[("outcome", [1, 2])]] 0 "treatment_effect").2.df_ref
      = [("outcome", [1, 2]), ("treatment_effect", [5, 5])] := by
  have hth := construct_fit_no_caller_mutation id (fun _ => [5, 5])
    [[("outcome", [1, 2])]] 0 "treatment_effect" (by decide)
  refine ⟨hth.2.1, ?_⟩
  rw [hth.2.2]
  rfl

/-! ### `fit` / `predict` round trip (lines 159–190)

```python
def fit(self):
    self.model.fit(self.x.values, self.treatment.values, self.y.values)
    preds = self._predict(self.x)
    self.df[self.te] = preds
    return self

def predict(self, df):
    _, x, _, _ = self.pp.preprocess(df, training=False)
    return self._predict(x)
```

`self.x` is the feature matrix the training-mode preprocessing produced at
construction (line 113); `predict` re-preprocesses its input in inference
mode and feeds the result to the same fitted model. -/

/-- What `self.pp.preprocess(df, training=True)` returns (line 113): the
fitted preprocessor state together with the feature matrix, outcome vector
and treatment vector. -/
structure PreprocOut (R P : Type) where
  state : P
  x : List R
  y : List ℚ
  treatment : List ℚ

/-- Modelled from the spec: the `DataframePreprocessor` collaborator
(`causalnlp/preprocessing.py`, absent from the sources shown).  Per §6 it
fits vectorizers/encoders in training mode and, in inference mode, applies
the previously fitted transforms only. -/
structure Preproc (D R P : Type) where
  fitTransform : D → PreprocOut R P
  transform : P → D → List R

/-- Modelled from the spec: a metalearner collaborator
(`causalnlp/meta/*.py`, absent from the sources shown) with the
`fit(X, treatment, y)` / `predict(X)` contract of §6. -/
structure MetaLearner (R M : Type) where
  fit : List R → List ℚ → List ℚ → M
  predict : M → List R → List ℚ

/-- Attributes of the orchestrator after `fit`: fitted preprocessor state,
stored training features `self.x`, fitted model and the Treatment Effect
Column written into the stored dataset. -/
structure FittedOrch (R P M : Type) where
  pp_state : P
  x : List R
  model : M
  te_col : List ℚ

/-- Embedding of construction-time preprocessing (line 113) followed by
`fit` (lines 159–170): train the metalearner, predict effects over the same
training features, store them as the Treatment Effect Column. -/
def cim_fit_fun {D R P M : Type} (pp : Preproc D R P) (ml : MetaLearner R M) (df : D) :
    FittedOrch R P M :=
  let o := pp.fitTransform df
  let m := ml.fit o.x o.treatment o.y
  let preds := ml.predict m o.x
  { pp_state := o.state, x := o.x, model := m, te_col := preds }

/-- Embedding of `predict` (lines 172–179): re-preprocess the input in
inference mode, then predict with the fitted model. -/
def cim_predict_fun {D R P M : Type} (pp : Preproc D R P) (s : FittedOrch R P M)
    (ml : MetaLearner R M) (df : D) : List ℚ :=
  ml.predict s.model (pp.transform s.pp_state df)

/-- C6: `predict` on the exact dataframe used at construction/fit time
returns, row for row, the values `fit` wrote into the Treatment Effect
Column, provided the inference-mode transform of the training dataframe
reproduces the training-time feature matrix (the preprocessing counterpart of
the claim's determinism proviso). -/
theorem fit_predict_roundtrip {D R P M : Type} (pp : Preproc D R P)
    (ml : MetaLearner R M) (df : D)
    (hpp : pp.transform (pp.fitTransform df).state df = (pp.fitTransform df).x) :
    cim_predict_fun pp (cim_fit_fun pp ml df) ml df = (cim_fit_fun pp ml df).te_col := by
  simp only [cim_predict_fun, cim_fit_fun]
  rw [hpp]

/-- A concrete preprocessor for evaluation: features are the raw rows, no
fitted state, inference transform is the identity on rows. -/
def ppIdentity : Preproc (List (List ℚ)) (List ℚ) Unit :=
  { fitTransform := fun d => { state := (), x := d, y := [], treatment := [] }
    transform := fun _ d => d }

/-- A concrete metalearner for evaluation: no fitted state, the predicted
effect of a row is its sum. -/
def mlRowSum : MetaLearner (List ℚ) Unit :=
  { fit := fun _ _ _ => ()
    predict := fun _ rows => rows.map List.sum }

/-- Witness for C6: on a two-row frame with the identity preprocessor and
row-sum learner, `predict` returns exactly the stored effect column `[3, 7]`. -/
theorem fit_predict_roundtrip_witness :
    cim_predict_fun ppIdentity (cim_fit_fun ppIdentity mlRowSum [[1, 2], [3, 4]]) mlRowSum
        [[1, 2], [3, 4]]
      = (cim_fit_fun ppIdentity mlRowSum [[1, 2], [3, 4]]).te_col
    ∧ (cim_fit_fun ppIdentity mlRowSum [[1, 2], [3, 4]]).te_col = [3, 7] := by
  refine ⟨fit_predict_roundtrip ppIdentity mlRowSum [[1, 2], [3, 4]] rfl, ?_⟩
  norm_num [cim_fit_fun, ppIdentity, mlRowSum, List.sum_cons]

end CausalNLP
